import Mathlib

/-!
Verification of the card identity resolution engine
(`lookup_pc_fuzzy.py` and `lookup_cards.py`) against its specification.

The Python code is shallowly embedded: the SQLite `cards` table becomes a
`List Card`, SQL filters become `List.filter`, the external `rapidfuzz`
similarity functions become function parameters, and Python call semantics
for the `lookup_best_match` invocation in `lookup_cards.run` are embedded
as an explicit keyword-binding step.
-/

/-- A Python value as far as `extract_int` is concerned: `None`, a string,
or an integer (any other object would likewise go through `str`). -/
inductive PyVal where
  | none : PyVal
  | str : String → PyVal
  | int : Int → PyVal
deriving DecidableEq

/-- Python truthiness for the values of `PyVal`. -/
def PyVal.truthy : PyVal → Bool
  | .none => false
  | .str s => s ≠ ""
  | .int n => n ≠ 0

/-- Python `str()` on the values of `PyVal`. -/
def PyVal.toStr : PyVal → String
  | .none => "None"
  | .str s => s
  | .int n => toString n

/-- Value of a list of decimal digit characters, most significant first. -/
def digitsVal (ds : List Char) : Nat :=
  ds.foldl (fun a c => 10 * a + (c.toNat - 48)) 0

/-- The first maximal run of decimal digits, truncated to 4 characters:
the match of the regex `(\d{1,4})` under `re.search` (leftmost position,
greedy up to four digits). Returns `none` when the text has no digit. -/
def firstDigitRun : List Char → Option (List Char)
  | [] => Option.none
  | c :: cs =>
      if c.isDigit then Option.some (((c :: cs).takeWhile Char.isDigit).take 4)
      else firstDigitRun cs

/-- `extract_int` on a genuine string: `re.search(r"(\d{1,4})", s)` and
conversion of the captured group with `int`. -/
def extract_int_str (s : String) : Option Nat :=
  (firstDigitRun s.data).map digitsVal

/-- `extract_int` from `lookup_pc_fuzzy.py` (lines 5-17): `None` on falsy
input, otherwise regex extraction from `str(num_text)`. -/
def extract_int (v : PyVal) : Option Nat :=
  if v.truthy then extract_int_str v.toStr else Option.none

/-- One row of the SQLite `cards` table, as selected by `fetch_candidates`
(`build_pc_db.py` lines 22-32 give the schema; `card_number` is TEXT and
prices are nullable REAL, modelled as `Option ℚ`). -/
structure Card where
  card_name : String
  card_number : String
  card_url : String
  ungraded_price : Option ℚ
  grade9_price : Option ℚ
  psa10_price : Option ℚ
deriving DecidableEq

/-- Does `p` occur at the start of `s`? (Character-list helper.) -/
def prefixCheck : List Char → List Char → Bool
  | [], _ => true
  | _ :: _, [] => false
  | a :: ps, b :: ss => a == b && prefixCheck ps ss

/-- Does `p` occur somewhere inside `s`? (Character-list helper.) -/
def hasSub : List Char → List Char → Bool
  | p, [] => prefixCheck p []
  | p, b :: ss => prefixCheck p (b :: ss) || hasSub p ss

/-- ASCII lower-casing of one character (SQLite LIKE folds only A-Z). -/
def lowerChar (c : Char) : Char :=
  if 65 ≤ c.toNat ∧ c.toNat ≤ 90 then Char.ofNat (c.toNat + 32) else c

/-- ASCII lower-casing of a string. -/
def lowerStr (s : String) : String :=
  String.mk (s.data.map lowerChar)

/-- SQLite `column LIKE '%pat%'`: ASCII-case-insensitive substring test. -/
def likeSub (pat s : String) : Bool :=
  hasSub (lowerStr pat).data (lowerStr s).data

/-- Python `str.zfill`: left-pad with zeros to width `w` (the padded strings
here are decimal representations of non-negative integers). -/
def zfill (w : Nat) (s : String) : String :=
  if w ≤ s.length then s
  else String.mk (List.replicate (w - s.length) '0') ++ s

/-- Python `str.strip()`: drop leading and trailing whitespace. -/
def pyStrip (s : String) : String :=
  String.mk (((s.data.dropWhile Char.isWhitespace).reverse.dropWhile
    Char.isWhitespace).reverse)

/-- The first word token of the input name, as computed on line 84 of
`lookup_pc_fuzzy.py`: empty for a falsy name, otherwise the head of
`strip().split(" ")`. -/
def firstTok (s : String) : String :=
  if s = "" then ""
  else String.mk ((pyStrip s).data.takeWhile (fun c => c ≠ ' '))

/-- The SQL WHERE clause of the number query (`lookup_pc_fuzzy.py` lines
62-79): equality with the plain integer string, equality with its 3-wide
zero-fill, or LIKE-containment of either form. -/
def numberWhere (ns : String) (c : Card) : Bool :=
  c.card_number == ns || c.card_number == zfill 3 ns ||
    likeSub ns c.card_number || likeSub (zfill 3 ns) c.card_number

/-- The de-duplication loop of `fetch_candidates` (lines 97-102): a Python
dict keyed by `card_url` keeps keys in first-insertion order and, for each
key, the last row written. -/
def dedupByUrl (rows : List Card) : List Card :=
  ((rows.map Card.card_url).eraseDups).filterMap
    (fun u => (rows.filter (fun c => c.card_url == u)).getLast?)

/-- `fetch_candidates` from `lookup_pc_fuzzy.py` (lines 45-102). The SQLite
connection becomes the table contents `tbl`; both queries preserve table
order and apply `LIMIT`. A number-filtered pool is fetched when an integer
can be extracted, a name-token pool is added whenever the first token of
the input name is nonempty, and the union is de-duplicated by URL. -/
def fetch_candidates (tbl : List Card) (input_name input_number_text : String)
    (limit : Nat) : List Card :=
  let fromNum : List Card :=
    match extract_int (PyVal.str input_number_text) with
    | Option.some v => (tbl.filter (numberWhere (toString v))).take limit
    | Option.none => []
  let tok := firstTok input_name
  let fromName : List Card :=
    if tok ≠ "" then (tbl.filter (fun c => likeSub tok c.card_name)).take limit
    else []
  dedupByUrl (fromNum ++ fromName)

/-- Python `round` (banker's rounding, half to even) followed by `int`,
on a rational score. -/
def pyRound (q : ℚ) : ℤ :=
  if q - ⌊q⌋ < 1 / 2 then ⌊q⌋
  else if (1 : ℚ) / 2 < q - ⌊q⌋ then ⌊q⌋ + 1
  else if ⌊q⌋ % 2 = 0 then ⌊q⌋ else ⌊q⌋ + 1

/-- `number_similarity` from `lookup_pc_fuzzy.py` (lines 22-43). When both
texts yield an extracted integer: 100 on equality, 70 when they differ by
at most 2, 40 when by at most 5, otherwise 0. Otherwise the external
`fuzz.partial_ratio`, supplied as the parameter `pratio`. -/
def number_similarity (pratio : String → String → ℚ)
    (input_num_text candidate_num_text : String) : ℚ :=
  match extract_int (PyVal.str input_num_text),
      extract_int (PyVal.str candidate_num_text) with
  | Option.some a, Option.some b =>
      if a = b then 100
      else if ((a : ℤ) - b).natAbs ≤ 2 then 70
      else if ((a : ℤ) - b).natAbs ≤ 5 then 40
      else 0
  | _, _ => pratio input_num_text candidate_num_text

/-- One scored match dictionary built by `lookup_best_match`
(lines 130-142): combined score plus the candidate row's fields. -/
structure RankedCandidate where
  score : ℤ
  name_score : ℚ
  number_score : ℚ
  card_name : String
  card_number : String
  card_url : String
  ungraded_price : Option ℚ
  grade9_price : Option ℚ
  psa10_price : Option ℚ
deriving DecidableEq

/-- The scoring of one candidate row (lines 120-126): name similarity via
the external `fuzz.WRatio` (parameter `wratio`, 0 for an empty input name),
number similarity, and `combined = int(round(0.80 * ns + 0.20 * nums))`. -/
def scoreCard (wratio pratio : String → String → ℚ)
    (card_name card_number_text : String) (c : Card) : RankedCandidate :=
  let ns : ℚ := if card_name ≠ "" then wratio card_name c.card_name else 0
  let nums : ℚ := number_similarity pratio card_number_text c.card_number
  { score := pyRound (80 / 100 * ns + 20 / 100 * nums)
    name_score := ns
    number_score := nums
    card_name := c.card_name
    card_number := c.card_number
    card_url := c.card_url
    ungraded_price := c.ungraded_price
    grade9_price := c.grade9_price
    psa10_price := c.psa10_price }

/-- The sort order of `scored.sort(reverse=True, key=lambda x: x[0])`:
`a` may come before `b` exactly when `a`'s combined score is at least
`b`'s. Python's sort is stable, which `List.insertionSort` with this
relation reproduces exactly. -/
def rankRel (a b : RankedCandidate) : Prop :=
  b.score ≤ a.score

instance : DecidableRel rankRel := fun a b => Int.decLe b.score a.score

instance : IsTotal RankedCandidate rankRel :=
  ⟨fun a b => le_total b.score a.score⟩

instance : IsTrans RankedCandidate rankRel :=
  ⟨fun _ _ _ h1 h2 => le_trans h2 h1⟩

/-- Python list slicing `l[:k]` for an integer bound `k` (a negative bound
drops the last `-k` elements). -/
def pySlice (k : ℤ) (l : List α) : List α :=
  if 0 ≤ k then l.take k.toNat else l.take (l.length - (-k).toNat)

/-- `lookup_best_match` from `lookup_pc_fuzzy.py` (lines 104-144): fetch
candidates with limit 800, return `[]` when none, otherwise score each
candidate, stably sort by combined score descending, and keep the top
`top_k`. The external rapidfuzz scorers are the parameters `wratio` and
`pratio`. -/
def lookup_best_match (wratio pratio : String → String → ℚ) (tbl : List Card)
    (card_name card_number_text : String) (top_k : ℤ) : List RankedCandidate :=
  let candidates := fetch_candidates tbl card_name card_number_text 800
  if candidates.isEmpty then []
  else
    pySlice top_k
      (List.insertionSort rankRel
        (candidates.map (scoreCard wratio pratio card_name card_number_text)))

/-- A formal parameter of a Python function: its name and whether it has a
default value. -/
structure Param where
  name : String
  hasDefault : Bool
deriving DecidableEq

/-- The parameter list of `lookup_best_match` (`lookup_pc_fuzzy.py` line
104): `db_path`, `card_name`, `card_number_text`, `top_k=5`. -/
def lookupBestMatchParams : List Param :=
  [⟨"db_path", false⟩, ⟨"card_name", false⟩, ⟨"card_number_text", false⟩,
    ⟨"top_k", true⟩]

/-- The keyword-argument names of the `lookup_best_match(...)` call in
`lookup_cards.run` (lines 87-94), in call order; one positional argument
(`DB_PATH`) precedes them. -/
def runCallKwargs : List String :=
  ["card_name", "collector_number", "set_size", "copyright_year", "top_k"]

/-- Python argument binding for a call with `npos` positional arguments and
the given keyword-argument names: a keyword that is not a parameter raises
TypeError (unexpected keyword argument), a keyword already bound
positionally raises TypeError (multiple values), and an unbound parameter
without a default raises TypeError (missing argument). -/
def bindPythonCall (params : List Param) (npos : Nat) (kwargs : List String) :
    Except String Unit :=
  match kwargs.find? (fun k => !((params.map Param.name).contains k)) with
  | Option.some k => Except.error ("got an unexpected keyword argument " ++ k)
  | Option.none =>
      match kwargs.find? (fun k => ((params.take npos).map Param.name).contains k) with
      | Option.some k => Except.error ("got multiple values for argument " ++ k)
      | Option.none =>
          match (params.drop npos).find?
              (fun p => !p.hasDefault && !(kwargs.contains p.name)) with
          | Option.some p => Except.error ("missing a required argument: " ++ p.name)
          | Option.none => Except.ok ()

/-- The binding step of the one `lookup_best_match` call issued by
`lookup_cards.run`. -/
def runCallBinding : Except String Unit :=
  bindPythonCall lookupBestMatchParams 1 runCallKwargs

/-- The value of the `lookup_best_match(...)` call expression in `run`: the
binding step first, the function body only if binding succeeded. The
`Except.ok` branch is dead: the binding provably fails (see the theorem on
C4), so no body result exists to model. -/
def callMatches : Except String (List RankedCandidate) :=
  match runCallBinding with
  | Except.error e => Except.error ("TypeError: lookup_best_match() " ++ e)
  | Except.ok _ => Except.error "unreachable"

/-- The default of the `min_name_score` parameter of `run`
(`lookup_cards.py` line 57). -/
def min_name_score_default : ℤ := 70

/-- `best = matches[0] if matches else None` (line 96). -/
def bestOf (ms : List RankedCandidate) : Option RankedCandidate :=
  ms.head?

/-- The review decision of `run` (lines 99-106): review when there is no
best match, the best score is below `min_name_score`, the claimed set size
or year is absent, or the collector-number text or name is empty. -/
def needs_review (ms : List RankedCandidate)
    (set_size copyright_year : Option ℤ) (collector_number name : String)
    (min_name_score : ℤ) : Bool :=
  match bestOf ms with
  | Option.none => true
  | Option.some b =>
      decide (b.score < min_name_score) || decide (set_size = Option.none) ||
        decide (copyright_year = Option.none) ||
        decide (collector_number = "") || decide (name = "")

/-- The keys of the per-record output object written to
`tmp/card_matches.jsonl` (`lookup_cards.py` lines 108-123). -/
def outRecordKeys : List String :=
  ["image", "input", "best", "matches", "needs_review"]

/-- One parsed input record, after the field extraction of lines 81-84
(name and collector number already stripped, size and year already pushed
through `to_int`). -/
structure Rec where
  card_name : String
  collector_number : String
  set_size : Option ℤ
  copyright_year : Option ℤ
deriving DecidableEq

/-- The final per-record object of `run` (lines 96-123), restricted to the
fields the spec constrains. -/
structure Outcome where
  best : Option RankedCandidate
  matchList : List RankedCandidate
  needs_review : Bool
deriving DecidableEq

/-- Processing of one record inside `run`s loop (lines 87-123): evaluate
the `lookup_best_match` call, then build the output object from its
result. -/
def processRecord (min_name_score : ℤ) (r : Rec) : Except String Outcome :=
  callMatches.bind (fun ms =>
    Except.ok
      { best := bestOf ms
        matchList := ms
        needs_review := needs_review ms r.set_size r.copyright_year
          r.collector_number r.card_name min_name_score })

/-- One line of the input JSONL, abstracted to the three cases `run`
distinguishes: whitespace-only (skipped), malformed JSON (`json.loads`
raises), or a well-formed record. -/
inductive RawLine where
  | blank : RawLine
  | malformed : RawLine
  | record : Rec → RawLine
deriving DecidableEq

/-- The loop of `run` (lines 70-125) from line index `idx` on: lines before
`start_at` are skipped, blank lines are skipped, a malformed line raises
(`json.loads` has no surrounding handler), and a record line appends one
output object. An uncaught exception aborts the remaining batch. -/
def runLines (min_name_score : ℤ) (start_at : Nat) :
    Nat → List RawLine → Except String (List Outcome)
  | _, [] => Except.ok []
  | idx, l :: ls =>
      if idx < start_at then runLines min_name_score start_at (idx + 1) ls
      else
        match l with
        | RawLine.blank => runLines min_name_score start_at (idx + 1) ls
        | RawLine.malformed => Except.error "json.decoder.JSONDecodeError"
        | RawLine.record r =>
            (processRecord min_name_score r).bind (fun o =>
              (runLines min_name_score start_at (idx + 1) ls).map
                (fun os => o :: os))

/-- `lookup_cards.run`: the whole batch, starting at index 0. -/
def run (min_name_score : ℤ) (start_at : Nat) (lines : List RawLine) :
    Except String (List Outcome) :=
  runLines min_name_score start_at 0 lines

/-- A concrete catalog row: a number-103 card that, in the scraped catalog,
belongs to a Japanese set of a different size. `fetch_candidates` has no
access to any set metadata, so nothing can exclude it. -/
def cardJP : Card :=
  { card_name := "Lillie Special Art"
    card_number := "103"
    card_url := "jp-103"
    ungraded_price := Option.none
    grade9_price := Option.none
    psa10_price := Option.none }

/-- A concrete catalog row matched purely by name. -/
def cardPika : Card :=
  { card_name := "Pikachu VMAX"
    card_number := "53"
    card_url := "pika-53"
    ungraded_price := Option.none
    grade9_price := Option.none
    psa10_price := Option.none }

/-- A constant name scorer standing in for `fuzz.WRatio` on a perfect name
match (rapidfuzz returns 100.0 there). -/
def wrK : String → String → ℚ := fun _ _ => 100

/-- A constant fallback scorer standing in for `fuzz.partial_ratio` on
disjoint strings. -/
def prZ : String → String → ℚ := fun _ _ => 0

/-- A catalog row whose number is far from the queried one, so its number
score is 0 while its name matches perfectly. -/
def cardFar : Card :=
  { card_name := "Pikachu VMAX"
    card_number := "999"
    card_url := "far-999"
    ungraded_price := Option.none
    grade9_price := Option.none
    psa10_price := Option.none }

/-- Auxiliary bound: the fold computing `digitsVal` stays below
`(a+1) * 10 ^ length` when every character is a digit. -/
theorem digitsVal_fold_lt (ds : List Char) :
    ∀ a : Nat, (∀ c ∈ ds, c.isDigit) →
      ds.foldl (fun a c => 10 * a + (c.toNat - 48)) a < (a + 1) * 10 ^ ds.length := by
  induction ds with
  | nil => intro a _; simp
  | cons c cs ih =>
      intro a h
      have hc : c.isDigit := h c (List.mem_cons_self c cs)
      have hd : c.toNat - 48 ≤ 9 := by
        simp only [Char.isDigit, Bool.and_eq_true, decide_eq_true_eq] at hc
        have h57 : c.val.toNat ≤ 57 :=
          UInt32.toNat_le_of_le (by norm_num [UInt32.size]) hc.2
        have hcn : c.toNat = c.val.toNat := rfl
        omega
      have hrec := ih (10 * a + (c.toNat - 48)) (fun x hx => h x (List.mem_cons_of_mem _ hx))
      have hle : (10 * a + (c.toNat - 48) + 1) * 10 ^ cs.length ≤
          (a + 1) * 10 ^ (c :: cs).length := by
        have : 10 * a + (c.toNat - 48) + 1 ≤ (a + 1) * 10 := by omega
        calc (10 * a + (c.toNat - 48) + 1) * 10 ^ cs.length
            ≤ (a + 1) * 10 * 10 ^ cs.length := Nat.mul_le_mul_right _ this
          _ = (a + 1) * 10 ^ (c :: cs).length := by
              simp [List.length_cons, pow_succ]; ring
      exact lt_of_lt_of_le hrec hle

/-- Every run returned by `firstDigitRun` has length at most 4 and consists
of digit characters. -/
theorem firstDigitRun_spec (cs : List Char) (ds : List Char)
    (h : firstDigitRun cs = Option.some ds) :
    ds.length ≤ 4 ∧ ∀ c ∈ ds, c.isDigit := by
  induction cs with
  | nil => simp [firstDigitRun] at h
  | cons c cs ih =>
      by_cases hc : c.isDigit
      · simp only [firstDigitRun, hc, if_pos] at h
        obtain rfl : ((c :: cs).takeWhile Char.isDigit).take 4 = ds := by
          simpa using h
        refine ⟨List.length_take_le _ _, ?_⟩
        intro x hx
        have hx2 : x ∈ (c :: cs).takeWhile Char.isDigit := List.mem_of_mem_take hx
        exact List.mem_takeWhile_imp hx2
      · simp only [firstDigitRun, hc, if_neg, Bool.false_eq_true, not_false_iff] at h
        exact ih h

/-- Whenever `extract_int` returns a number, that number is at most 9999. -/
theorem extract_int_le (v : PyVal) (n : Nat) (h : extract_int v = Option.some n) :
    n ≤ 9999 := by
  unfold extract_int at h
  by_cases ht : v.truthy
  · simp only [ht, if_pos] at h
    unfold extract_int_str at h
    obtain ⟨ds, hds, rfl⟩ := Option.map_eq_some'.mp h
    obtain ⟨hlen, hdig⟩ := firstDigitRun_spec _ _ hds
    have hlt : digitsVal ds < (0 + 1) * 10 ^ ds.length := digitsVal_fold_lt ds 0 hdig
    have h4 : (10 : Nat) ^ ds.length ≤ 10 ^ 4 := Nat.pow_le_pow_right (by norm_num) hlen
    simp only [Nat.zero_add, one_mul] at hlt
    omega
  · simp [ht] at h

/-- C7: the Identifier Normalizer on the spec's example "SV1V 053". The code
(`extract_int`, `lookup_pc_fuzzy.py` lines 5-17) returns the first digit
run, which is the "1" inside "SV1V", so the result is 1 — not the 53
promised by the claim and by the function's own docstring. -/
theorem extract_int_sv1v :
    extract_int (PyVal.str "SV1V 053") = Option.some 1 ∧ (1 : Nat) ≠ 53 := by
  constructor
  · rfl
  · decide

/-- C10: `extract_int` is total on `None`, strings and non-string values,
every returned integer lies in [0, 9999] (it is a `Nat` of at most four
digits), and a first digit run longer than four digits is truncated to its
first four digits ("12345" yields 1234), rather than reported as absent. -/
theorem extract_int_total_bounded :
    (∀ v n, extract_int v = Option.some n → n ≤ 9999) ∧
    extract_int (PyVal.str "12345") = Option.some 1234 ∧
    extract_int PyVal.none = Option.none ∧
    extract_int (PyVal.str "") = Option.none ∧
    extract_int (PyVal.int 245) = Option.some 245 := by
  refine ⟨extract_int_le, ?_, ?_, ?_, ?_⟩ <;> rfl

/-- Witness for C10 at the concrete input "12345": the hypothesis of the
range bound is discharged by evaluation. -/
theorem extract_int_total_bounded_witness : (1234 : Nat) ≤ 9999 :=
  extract_int_total_bounded.1 (PyVal.str "12345") 1234 (by rfl)

/-- C2: the candidate fetch applies no set-metadata constraint. With input
number text "103/165" (and set size 165, year 2023 claimed upstream), the
only lookup path in the code returns every number-103 card of the whole
catalog — here a card of a non-matching, non-English set — because
`fetch_candidates` never consults `SetMetadata` and run's attempt to pass
`set_size`/`copyright_year` to `lookup_best_match` cannot bind (C4). -/
theorem fetch_candidates_ignores_set_constraints :
    fetch_candidates [cardJP] "" "103/165" 500 = [cardJP] := by
  rfl

/-- Counterexample to C3: with an absent (empty) number text the fetcher
does fall back to a name-only scan — the first name token "Pikachu" pulls
the card by `card_name LIKE`, so the result is not empty. -/
theorem fetch_candidates_c3_cex :
    fetch_candidates [cardPika] "Pikachu" "" 500 = [cardPika] ∧
      [cardPika] ≠ ([] : List Card) := by
  exact ⟨by rfl, by simp⟩

/-- C3 amended: `fetch_candidates` takes no candidate-set argument; it
returns no candidates exactly when no integer can be extracted from the
number text AND the input name's first token is empty. A nonempty first
name token always contributes a name-based pool, so a name-only fallback
does exist. -/
theorem fetch_candidates_empty_of_no_signal
    (tbl : List Card) (nm num : String) (lim : Nat)
    (h1 : extract_int (PyVal.str num) = Option.none) (h2 : firstTok nm = "") :
    fetch_candidates tbl nm num lim = [] := by
  unfold fetch_candidates
  rw [h1, h2]
  simp [dedupByUrl]

/-- Witness for the amended C3 at a concrete input with neither signal. -/
theorem fetch_candidates_empty_of_no_signal_witness :
    fetch_candidates [cardPika] "" "abc" 500 = [] :=
  fetch_candidates_empty_of_no_signal [cardPika] "" "abc" 500 (by rfl) (by rfl)

/-- Helper: the keyword binding of run's call fails on `collector_number`. -/
theorem runCallBinding_fails :
    runCallBinding =
      Except.error "got an unexpected keyword argument collector_number" := by
  rfl

/-- Helper: therefore processing any record raises a TypeError. -/
theorem processRecord_raises (thr : ℤ) (r : Rec) :
    processRecord thr r =
      Except.error
        "TypeError: lookup_best_match() got an unexpected keyword argument collector_number" := by
  rfl

/-- Helper: a batch run that terminates normally produced no outcome at
all (every non-skipped record line raises). -/
theorem runLines_ok_nil (thr : ℤ) (s : Nat) :
    ∀ (lines : List RawLine) (idx : Nat) (out : List Outcome),
      runLines thr s idx lines = Except.ok out → out = [] := by
  intro lines
  induction lines with
  | nil => intro idx out h; simpa [runLines] using h.symm
  | cons l ls ih =>
      intro idx out h
      unfold runLines at h
      by_cases hidx : idx < s
      · rw [if_pos hidx] at h
        exact ih _ _ h
      · rw [if_neg hidx] at h
        cases l with
        | blank => dsimp only at h; exact ih _ _ h
        | malformed => simp at h
        | record r => simp [processRecord_raises, Except.bind] at h

/-- C4: the call in `lookup_cards.run` (lines 87-94) passes keyword
arguments `collector_number`, `set_size` and `copyright_year` that
`lookup_best_match` (parameters `db_path`, `card_name`,
`card_number_text`, `top_k`) does not accept, so binding raises a
TypeError; consequently every record that reaches matching raises, and a
normally terminating batch contains no match output at all. -/
theorem run_call_type_error :
    runCallBinding =
        Except.error "got an unexpected keyword argument collector_number" ∧
      (∀ (thr : ℤ) (r : Rec), ∃ e, processRecord thr r = Except.error e) ∧
      (∀ (thr : ℤ) (s : Nat) (lines : List RawLine) (out : List Outcome),
        run thr s lines = Except.ok out → out = []) := by
  refine ⟨by rfl, fun thr r => ⟨_, processRecord_raises thr r⟩, ?_⟩
  intro thr s lines out h
  exact runLines_ok_nil thr s lines 0 out h

/-- Witness for C4 at the concrete batch consisting of one blank line,
which terminates normally with no output. -/
theorem run_call_type_error_witness : ([] : List Outcome) = [] :=
  run_call_type_error.2.2 70 0 [RawLine.blank] [] (by rfl)

/-- C5: the review decision of `run` (lines 96-106) is true exactly when
the match list is empty (best is none), the top score is below the
threshold (whose default is 70), the claimed set size or copyright year is
absent, or the collector-number text or the input name is empty; `best` is
always the head of the ranked match list. -/
theorem needs_review_iff :
    ∀ (ms : List RankedCandidate) (ss yr : Option ℤ) (cn nm : String) (thr : ℤ),
      (needs_review ms ss yr cn nm thr = true ↔
        bestOf ms = Option.none ∨
          (∃ b, bestOf ms = Option.some b ∧ b.score < thr) ∨
          ss = Option.none ∨ yr = Option.none ∨ cn = "" ∨ nm = "") ∧
      bestOf ms = ms.head? ∧ min_name_score_default = 70 := by
  intro ms ss yr cn nm thr
  refine ⟨?_, rfl, rfl⟩
  cases ms with
  | nil => simp [needs_review, bestOf]
  | cons b t =>
      simp only [needs_review, bestOf, List.head?, Bool.or_eq_true,
        decide_eq_true_eq, Option.some.injEq, reduceCtorEq, false_or,
        exists_eq_left']
      tauto

/-- Counterexample to C6: a batch containing one malformed record raises
(`json.loads` is not wrapped in any handler) instead of emitting an
unresolved outcome for it. -/
theorem run_aborts_on_malformed_cex :
    run 70 0 [RawLine.malformed] =
      Except.error "json.decoder.JSONDecodeError" := by
  rfl

/-- C6 amended: bulk resolution does emit at most one outcome per record
in input order, but a failure on a single record is not reported as an
unresolved outcome — it raises and aborts the rest of the batch: any batch
containing a malformed line (with the default start index 0) ends in an
error. -/
theorem runLines_error_of_malformed (thr : ℤ) :
    ∀ (lines : List RawLine) (idx : Nat), RawLine.malformed ∈ lines →
      ∃ e, runLines thr 0 idx lines = Except.error e := by
  intro lines
  induction lines with
  | nil => intro idx h; cases h
  | cons l ls ih =>
      intro idx h
      unfold runLines
      rw [if_neg (Nat.not_lt_zero idx)]
      cases l with
      | blank =>
          dsimp only
          refine ih (idx + 1) ?_
          rcases List.mem_cons.mp h with h1 | h1
          · exact absurd h1 (by simp)
          · exact h1
      | malformed => exact ⟨_, rfl⟩
      | record r =>
          dsimp only
          rw [processRecord_raises]
          exact ⟨_, rfl⟩

theorem run_aborts_on_malformed (thr : ℤ) (lines : List RawLine)
    (h : RawLine.malformed ∈ lines) :
    ∃ e, run thr 0 lines = Except.error e :=
  runLines_error_of_malformed thr lines 0 h

/-- Witness for the amended C6 at the concrete one-line malformed batch. -/
theorem run_aborts_on_malformed_witness :
    ∃ e, run 70 0 [RawLine.malformed] = Except.error e :=
  run_aborts_on_malformed 70 [RawLine.malformed] (by simp)

/-- Counterexample to C8: the per-record output object written by `run`
(lines 108-123) has no `review_reasons` key at all, so no triggering
reason is ever individually recorded there. -/
theorem out_record_no_review_reasons :
    outRecordKeys.contains "review_reasons" = false := by
  decide

/-- C8 amended: the review conditions are recorded only as the single
boolean `needs_review` — the output object has no `review_reasons` list —
and an empty collector-number text does force `needs_review = true` for
every match list, even a high-scoring one. -/
theorem review_boolean_only :
    outRecordKeys.contains "review_reasons" = false ∧
      ∀ (ms : List RankedCandidate) (ss yr : Option ℤ) (nm : String) (thr : ℤ),
        needs_review ms ss yr "" nm thr = true := by
  refine ⟨by decide, ?_⟩
  intro ms ss yr nm thr
  cases ms with
  | nil => rfl
  | cons b t => simp [needs_review, bestOf]

/-- Helper: Python round of an integer value is that integer. -/
theorem pyRound_intCast (z : ℤ) : pyRound ((z : ℚ)) = z := by
  unfold pyRound
  rw [Int.floor_intCast, sub_self, if_pos (by norm_num)]

/-- Counterexample to C1: with name score 100 and number score 0 the code
(`lookup_pc_fuzzy.py` line 124) produces combined = round(0.80 x 100 +
0.20 x 0) = 80, whereas the claimed formula round(0.85 x 100 + 0.15 x 0)
gives 85. -/
theorem lookup_weights_cex :
    (lookup_best_match wrK prZ [cardFar] "Pikachu" "1" 5).map
        RankedCandidate.score = [80] ∧
      pyRound (85 / 100 * 100 + 15 / 100 * 0) = 85 ∧ (80 : ℤ) ≠ 85 := by
  refine ⟨?_, ?_, by decide⟩
  · rw [show lookup_best_match wrK prZ [cardFar] "Pikachu" "1" 5 =
        [scoreCard wrK prZ "Pikachu" "1" cardFar] from rfl]
    simp only [List.map]
    rw [show (scoreCard wrK prZ "Pikachu" "1" cardFar).score =
        pyRound (80 / 100 * 100 + 20 / 100 * 0) from rfl,
      show (80 / 100 * (100 : ℚ) + 20 / 100 * 0) = ((80 : ℤ) : ℚ) from by norm_num,
      pyRound_intCast]
  · rw [show (85 / 100 * (100 : ℚ) + 15 / 100 * 0) = ((85 : ℤ) : ℚ) from by norm_num,
      pyRound_intCast]

/-- C1 amended: every candidate annotated by the scorer carries
combined = round(0.80 x name_score + 0.20 x number_score), where the
number score is `number_similarity` (100 on equal extracted numbers, 70
when they differ by at most 2, 40 when by at most 5, 0 otherwise, with the
raw fuzzy fallback when extraction fails) and the name score is the
`WRatio` similarity, or 0 for an empty input name; so name 100 / number 0
gives 80, and name 0 / number 100 gives 20. -/
theorem lookup_scores (wr pr : String → String → ℚ) (tbl : List Card)
    (nm num : String) (k : ℤ) (c : RankedCandidate)
    (h : c ∈ lookup_best_match wr pr tbl nm num k) :
    c.score = pyRound (80 / 100 * c.name_score + 20 / 100 * c.number_score) ∧
      c.number_score = number_similarity pr num c.card_number ∧
      c.name_score = (if nm ≠ "" then wr nm c.card_name else 0) ∧
      pyRound (80 / 100 * 100 + 20 / 100 * 0) = 80 ∧
      pyRound (80 / 100 * 0 + 20 / 100 * 100) = 20 := by
  unfold lookup_best_match at h
  by_cases he : (fetch_candidates tbl nm num 800).isEmpty
  · rw [if_pos he] at h
    simp at h
  · rw [if_neg he] at h
    have h2 : c ∈ List.insertionSort rankRel
        ((fetch_candidates tbl nm num 800).map (scoreCard wr pr nm num)) := by
      unfold pySlice at h
      by_cases hk : (0 : ℤ) ≤ k
      · rw [if_pos hk] at h
        exact List.take_subset _ _ h
      · rw [if_neg hk] at h
        exact List.take_subset _ _ h
    have h3 : c ∈ (fetch_candidates tbl nm num 800).map (scoreCard wr pr nm num) :=
      (List.perm_insertionSort rankRel _).mem_iff.mp h2
    obtain ⟨cd, _, rfl⟩ := List.mem_map.mp h3
    refine ⟨rfl, rfl, rfl, ?_, ?_⟩
    · rw [show (80 / 100 * (100 : ℚ) + 20 / 100 * 0) = ((80 : ℤ) : ℚ) from by norm_num,
        pyRound_intCast]
    · rw [show (80 / 100 * (0 : ℚ) + 20 / 100 * 100) = ((20 : ℤ) : ℚ) from by norm_num,
        pyRound_intCast]

/-- Witness for the amended C1 at a concrete one-card catalog where both
scores are 100 and the combined score evaluates to 100. -/
theorem lookup_scores_witness :
    (scoreCard wrK prZ "Bulbasaur" "53" cardPika).score =
        pyRound (80 / 100 * (scoreCard wrK prZ "Bulbasaur" "53" cardPika).name_score +
          20 / 100 * (scoreCard wrK prZ "Bulbasaur" "53" cardPika).number_score) ∧
      (scoreCard wrK prZ "Bulbasaur" "53" cardPika).number_score =
        number_similarity prZ "53" (scoreCard wrK prZ "Bulbasaur" "53" cardPika).card_number ∧
      (scoreCard wrK prZ "Bulbasaur" "53" cardPika).name_score =
        (if "Bulbasaur" ≠ "" then wrK "Bulbasaur"
          (scoreCard wrK prZ "Bulbasaur" "53" cardPika).card_name else 0) ∧
      pyRound (80 / 100 * 100 + 20 / 100 * 0) = 80 ∧
      pyRound (80 / 100 * 0 + 20 / 100 * 100) = 20 :=
  lookup_scores wrK prZ [cardPika] "Bulbasaur" "53" 5
    (scoreCard wrK prZ "Bulbasaur" "53" cardPika)
    (by rw [show lookup_best_match wrK prZ [cardPika] "Bulbasaur" "53" 5 =
          [scoreCard wrK prZ "Bulbasaur" "53" cardPika] from rfl]
        exact List.mem_singleton.mpr rfl)

/-- Helper: inserting into the stable descending order commutes with
filtering on an exact combined score; the inserted element passes every
strictly greater one, so among equal scores it stays behind. -/
theorem filter_score_orderedInsert (k : ℤ) (x : RankedCandidate) :
    ∀ l : List RankedCandidate,
      (List.orderedInsert rankRel x l).filter (fun c => c.score == k) =
        (x :: l).filter (fun c => c.score == k) := by
  intro l
  induction l with
  | nil => rfl
  | cons y ys ih =>
      simp only [List.orderedInsert]
      by_cases hxy : rankRel x y
      · rw [if_pos hxy]
      · rw [if_neg hxy]
        have hlt : x.score < y.score := by
          simp only [rankRel] at hxy
          omega
        by_cases hy : y.score = k
        · have hx : ¬ x.score = k := by omega
          simp [List.filter_cons, ih, hy, hx]
        · simp [List.filter_cons, ih, hy]

/-- C9: the ranking used by `lookup_best_match` is a stable sort on the
combined score alone: for every score value, the subsequence of candidates
with that score is exactly their fetch-order subsequence, and the output
is sorted by descending combined score with no further tie-break. -/
theorem ranking_stable :
    ∀ (l : List RankedCandidate) (k : ℤ),
      ((List.insertionSort rankRel l).filter (fun c => c.score == k) =
        l.filter (fun c => c.score == k)) ∧
      (List.insertionSort rankRel l).Sorted rankRel := by
  intro l k
  refine ⟨?_, List.sorted_insertionSort rankRel l⟩
  induction l with
  | nil => rfl
  | cons x xs ih =>
      simp only [List.insertionSort]
      rw [filter_score_orderedInsert]
      simp [List.filter_cons, ih]
